import Mathlib

/-!
# Verification of the md2slides core

Shallow embedding of the md2slides repository's slide segmenter
(`parseSlides` in `SlidePreview.tsx` and `LandingPage.tsx`) and of the
gist gateway HTTP handlers (`/api/gist/save`, `/api/gist/list`,
`/api/gist/delete/:id`, `/api/gist/load/:id` in `index.ts`), together
with proofs of the specification's claims about them.

JavaScript strings are modelled as `List Char` (`Str`) for the
segmenter, where the algorithm works character by character, and as
Lean `String` for the gateway layer, where strings are opaque tokens
assembled by concatenation.  Remote (GitHub API) responses are
modelled as explicit parameters of the handler functions: a handler is
a pure function of the request data, the parsed ownership-cookie list,
and the outcome of each remote fetch it performs.
-/

namespace MdToSlides

/-- A JavaScript string, modelled as its list of characters. -/
abbrev Str := List Char

/-! ## Slide segmenter -/

/-- Whitespace as recognised by JavaScript `String.prototype.trim`
(ASCII portion: space, tab, LF, VT, FF, CR; the inputs of interest are
ASCII). -/
def isWsChar (c : Char) : Bool :=
  c = ' ' || c = '\t' || c = '\n' || c = '\u000B' || c = '\u000C' || c = '\r'

/-- JavaScript `text.trim()`. -/
def jsTrim (s : Str) : Str :=
  ((s.dropWhile isWsChar).reverse.dropWhile isWsChar).reverse

/-- JavaScript `text.split("\n")`: always returns at least one group;
`""` splits to `[""]`. -/
def splitNl : Str → List Str
  | [] => [[]]
  | c :: rest =>
    if c = '\n' then [] :: splitNl rest
    else
      match splitNl rest with
      | [] => [[c]]
      | g :: gs => (c :: g) :: gs

/-- JavaScript `array.join("\n")` on a list of lines. -/
def joinNl : List Str → Str
  | [] => []
  | [x] => x
  | x :: y :: t => x ++ '\n' :: joinNl (y :: t)

/-- The test `/^#{1,2} /.test(line)` from both `parseSlides`
implementations: the line starts with `"# "` or `"## "`. -/
def isBoundary (l : Str) : Bool :=
  match l with
  | c1 :: c2 :: rest =>
    if c1 = '#' then
      if c2 = ' ' then true
      else if c2 = '#' then
        match rest with
        | c3 :: _ => c3 = ' '
        | [] => false
      else false
    else false
  | _ => false

/-- The accumulation loop shared verbatim by the two `parseSlides`
implementations: `current` is the accumulator of lines of the slide
being built, the result is the list of emitted slides (including the
final flush of a non-empty accumulator). -/
def goSlides (current : List Str) : List Str → List Str
  | [] => if current = [] then [] else [joinNl current]
  | l :: ls =>
    if isBoundary l then
      (if current = [] then [] else [joinNl current]) ++ goSlides [l] ls
    else
      goSlides (current ++ [l]) ls

/-- The placeholder slide of `SlidePreview.tsx`'s `parseSlides`. -/
def placeholderSP : Str := "# Welcome\n\nNo content to display".toList

/-- The placeholder slide of `LandingPage.tsx`'s `parseSlides`. -/
def placeholderLP : Str := "# Welcome".toList

/-- Function `parseSlides` from `src/components/SlidePreview.tsx` (lines 14-36):
returns the placeholder when `text.trim()` is empty, otherwise splits
on newlines, groups lines at `/^#{1,2} /` boundaries, and falls back to
the placeholder if no slide was produced. -/
def parseSlidesSP (text : Str) : List Str :=
  if jsTrim text = [] then [placeholderSP]
  else
    let slides := goSlides [] (splitNl text)
    if slides = [] then [placeholderSP] else slides

/-- Function `parseSlides` from `src/components/LandingPage.tsx` (lines 32-53):
identical loop but without the `text.trim()` early return and with a
shorter placeholder fallback. -/
def parseSlidesLP (text : Str) : List Str :=
  let slides := goSlides [] (splitNl text)
  if slides = [] then [placeholderLP] else slides

/-! ## Ownership cookie serialization

The save and delete handlers both emit a `Set-Cookie` header built as
`` `md2slides_owned=${encodeURIComponent(JSON.stringify(ownedGists))};
Path=/; Max-Age=31536000; SameSite=Lax` `` (index.ts lines 271-275 and
399-404). -/

/-- Upper-case hexadecimal digit, as used by `encodeURIComponent`. -/
def hexDigit (n : Nat) : Char :=
  if n < 10 then Char.ofNat (48 + n) else Char.ofNat (55 + n)

/-- Lower-case hexadecimal digit, as used by `JSON.stringify` escapes. -/
def hexDigitLower (n : Nat) : Char :=
  if n < 10 then Char.ofNat (48 + n) else Char.ofNat (87 + n)

/-- UTF-8 encoding of one character, as a list of byte values. -/
def utf8Bytes (c : Char) : List Nat :=
  let n := c.toNat
  if n < 128 then [n]
  else if n < 2048 then [192 + n / 64, 128 + n % 64]
  else if n < 65536 then [224 + n / 4096, 128 + (n / 64) % 64, 128 + n % 64]
  else [240 + n / 262144, 128 + (n / 4096) % 64, 128 + (n / 64) % 64, 128 + n % 64]

/-- Characters left unescaped by JavaScript `encodeURIComponent`:
alphanumerics and `-_.!~*'()`. -/
def isUnreservedChar (c : Char) : Bool :=
  c.isAlphanum || c = '-' || c = '_' || c = '.' || c = '!' || c = '~' ||
    c = '*' || c.toNat = 39 || c = '(' || c = ')'

/-- JavaScript `encodeURIComponent`: unreserved characters pass through,
every other character is percent-encoded byte by byte (UTF-8). -/
def encodeURIComponent (s : String) : String :=
  String.join (s.toList.map (fun c =>
    if isUnreservedChar c then String.singleton c
    else String.join ((utf8Bytes c).map (fun b =>
      String.mk ['%', hexDigit (b / 16), hexDigit (b % 16)]))))

/-- Escaping performed by `JSON.stringify` on one character inside a string literal. -/
def jsonEscapeChar (c : Char) : String :=
  if c = '"' then String.mk ['\\', '"']
  else if c = '\\' then String.mk ['\\', '\\']
  else if c = '\n' then String.mk ['\\', 'n']
  else if c = '\r' then String.mk ['\\', 'r']
  else if c = '\t' then String.mk ['\\', 't']
  else if c.toNat = 8 then String.mk ['\\', 'b']
  else if c.toNat = 12 then String.mk ['\\', 'f']
  else if c.toNat < 32 then
    String.mk ['\\', 'u', '0', '0', hexDigitLower (c.toNat / 16),
      hexDigitLower (c.toNat % 16)]
  else String.singleton c

/-- Serialization `JSON.stringify` of a list of strings (a JSON array). -/
def jsonStringify (ids : List String) : String :=
  "[" ++ String.intercalate (",")
    (ids.map (fun s => "\"" ++ String.join (s.toList.map jsonEscapeChar) ++ "\"")) ++ "]"

/-- Name of the ownership cookie, as written in index.ts. -/
def ownedCookieName : String := "md2slides_owned"

/-- The `Set-Cookie` header value emitted by the save and delete
handlers for a given owned-ID list. -/
def setCookieHeader (ids : List String) : String :=
  ownedCookieName ++ "=" ++ encodeURIComponent (jsonStringify ids) ++
    "; Path=/; Max-Age=31536000; SameSite=Lax"

/-- The cookie name of a `Set-Cookie` header value: the characters
before the first `=`. -/
def cookieNameOf (h : String) : String :=
  String.mk (h.toList.takeWhile (fun c => c ≠ '='))

/-! ## Gist gateway handlers

Each handler is embedded as a pure function of the request data, the
parsed owned-ID cookie list, and the outcome of each remote fetch it
performs.  A `FetchResult.netError` models a thrown network error
(caught by the handler's `catch` block); a `FetchResult.reply` carries
the HTTP response's `ok` flag, status, and the JSON body fields the
handler reads. -/

/-- The fields of a GitHub gist API response body that the save handler
reads, together with the response's `ok` flag and status. -/
structure GistResponse where
  ok : Bool
  status : Nat
  id : String
  html_url : String
deriving DecidableEq, Repr

/-- Outcome of one remote `fetch`: a thrown network error or a reply. -/
inductive FetchResult where
  | netError : FetchResult
  | reply (r : GistResponse) : FetchResult
deriving DecidableEq, Repr

/-- Result of `JSON.parse` on the `metadata.json` file content followed
by reading its `title` field: `malformed` when parsing throws,
otherwise `parsed t` with `t` the `title` field when present and truthy
(`none` when the field is absent or falsy). -/
inductive MetaJson where
  | malformed : MetaJson
  | parsed (title : Option String) : MetaJson
deriving DecidableEq, Repr

/-- The parts of a fetched gist that the list and load handlers read:
`presentation` is the content of the `presentation.md` file (when that
file exists) and `metadata` the parse of the `metadata.json` file (when
that file exists). -/
structure Gist where
  id : String
  description : String
  updated_at : String
  html_url : String
  presentation : Option String
  metadata : Option MetaJson
deriving DecidableEq, Repr

/-- The fixed placeholder title `"Untitled Presentation"`. -/
def defaultTitle : String := "Untitled Presentation"

/-- Title extraction shared by the list and load handlers: the metadata
`title` field when the metadata file exists, parses, and has a truthy
`title`; otherwise the fixed placeholder. -/
def titleOf : Option MetaJson → String
  | some (.parsed (some t)) => t
  | _ => defaultTitle

/-- Result of the `POST /api/gist/save` handler. -/
inductive SaveResult where
  | errorResp (status : Nat) (msg : String) : SaveResult
  | success (id : String) (url : String) (updated : Bool) (setCookie : String) : SaveResult
deriving DecidableEq, Repr

/-- Idempotent append of the resulting ID to the owned list
(`if (!ownedGists.includes(resultId)) ownedGists.push(resultId)`). -/
def addOwned (owned : List String) (resultId : String) : List String :=
  if resultId ∈ owned then owned else owned ++ [resultId]

/-- The update-else-create fetch sequence of the save handler
(index.ts lines 199-239): returns the response the handler goes on to
inspect together with `finalGistId`, or `none` when a fetch threw. -/
def saveAttempt (gistId : Option String) (update create : FetchResult) :
    Option (GistResponse × Option String) :=
  match gistId with
  | some gid =>
    match update with
    | .netError => none
    | .reply r =>
      if r.ok then some (r, some gid)
      else
        match create with
        | .netError => none
        | .reply c => some (c, none)
  | none =>
    match create with
    | .netError => none
    | .reply c => some (c, none)

/-- The `POST /api/gist/save` handler (index.ts lines 170-292).
`gistId` is `none` when the request body's `gistId` is absent or falsy;
`update` and `create` are the outcomes of the PATCH and POST fetches
(the `create` argument is unused when no create is attempted); `owned`
is the owned-ID list parsed from the request cookie. -/
def saveGist (token : String) (gistId : Option String)
    (update create : FetchResult) (owned : List String) : SaveResult :=
  if token = "" then .errorResp 500 "GitHub token not configured"
  else
    match saveAttempt gistId update create with
    | none => .errorResp 500 "Failed to save to gist"
    | some (resp, finalGistId) =>
      if resp.ok = false then .errorResp (resp.status) "Failed to save gist"
      else
        let resultId := finalGistId.getD resp.id
        .success resultId resp.html_url finalGistId.isSome
          (setCookieHeader (addOwned owned resultId))

/-- Result of the `DELETE /api/gist/delete/:id` handler. -/
inductive DeleteResult where
  | errorResp (status : Nat) (msg : String) : DeleteResult
  | success (setCookie : String) : DeleteResult
deriving DecidableEq, Repr

/-- The `DELETE /api/gist/delete/:id` handler (index.ts lines 359-418):
a non-ok remote status other than 404 is an error; otherwise the ID is
filtered out of the owned list and success is returned with the updated
cookie. -/
def deleteGist (token : String) (gistId : String) (remote : FetchResult)
    (owned : List String) : DeleteResult :=
  if token = "" then .errorResp 500 "GitHub token not configured"
  else
    match remote with
    | .netError => .errorResp 500 "Failed to delete gist"
    | .reply r =>
      if !r.ok && r.status != 404 then .errorResp (r.status) "Failed to delete gist"
      else .success (setCookieHeader (owned.filter (fun i => i ≠ gistId)))

/-- One entry of the `GET /api/gist/list` response. -/
structure ListEntry where
  id : String
  title : String
  description : String
  updatedAt : String
  url : String
deriving DecidableEq, Repr

/-- The list entry built from a successfully fetched gist. -/
def entryOf (g : Gist) : ListEntry :=
  { id := g.id, title := titleOf g.metadata, description := g.description,
    updatedAt := g.updated_at, url := g.html_url }

/-- The `GET /api/gist/list` handler (index.ts lines 295-357).  `fetch`
gives the outcome of the per-ID remote fetch: `none` models a non-ok
response or a thrown error (the handler maps either to `null`, filtered
out afterwards). -/
def listGists (token : String) (owned : List String)
    (fetch : String → Option Gist) : List ListEntry :=
  if token = "" then []
  else if owned = [] then []
  else owned.filterMap (fun gid => (fetch gid).map entryOf)

/-- Outcome of the load handler's remote fetch. -/
inductive LoadFetch where
  | netError : LoadFetch
  | httpError (status : Nat) : LoadFetch
  | okay (g : Gist) : LoadFetch
deriving DecidableEq, Repr

/-- Result of the `GET /api/gist/load/:id` handler. -/
inductive LoadResult where
  | errorResp (status : Nat) (msg : String) : LoadResult
  | ok (content : String) (title : String) : LoadResult
deriving DecidableEq, Repr

/-- The `GET /api/gist/load/:id` handler (index.ts lines 440-485). -/
def loadGist (token : String) (fetched : LoadFetch) : LoadResult :=
  if token = "" then .errorResp 500 "GitHub token not configured"
  else
    match fetched with
    | .netError => .errorResp 500 "Failed to load from gist"
    | .httpError s => .errorResp (s) "Gist not found"
    | .okay g => .ok (g.presentation.getD "") (titleOf g.metadata)

/-! ## Concrete sample data used to instantiate the theorems -/

/-- A sample fetched gist with full metadata. -/
def gistA : Gist :=
  { id := "a1", description := "demo", updated_at := "2024-01-01",
    html_url := "https://gist.github.com/a1", presentation := some "# A",
    metadata := some (.parsed (some "My Deck")) }

/-- A sample fetched gist whose metadata file is absent. -/
def gistNoMeta : Gist :=
  { id := "b2", description := "demo", updated_at := "2024-01-02",
    html_url := "https://gist.github.com/b2", presentation := some "# B",
    metadata := none }

/-- A sample per-ID fetch outcome map: only `"a1"` resolves. -/
def fetchW : String → Option Gist :=
  fun s => if s = "a1" then some gistA else none

end MdToSlides

namespace MdToSlides


/-! ## Helper lemmas about the segmenter -/

theorem splitNl_ne_nil (s : Str) : splitNl s ≠ [] := by
  match s with
  | [] => simp [splitNl]
  | c :: rest =>
    rw [splitNl]
    split
    · simp
    · match h : splitNl rest with
      | [] => simp
      | g :: gs => simp

theorem joinNl_cons_head (c : Char) (g : Str) (gs : List Str) :
    joinNl ((c :: g) :: gs) = c :: joinNl (g :: gs) := by
  match gs with
  | [] => simp [joinNl]
  | h :: t => simp [joinNl]

theorem joinNl_cons₂ (x y : Str) (t : List Str) :
    joinNl (x :: y :: t) = x ++ '\n' :: joinNl (y :: t) := rfl

theorem joinNl_splitNl (s : Str) : joinNl (splitNl s) = s := by
  induction s with
  | nil => simp [splitNl, joinNl]
  | cons c rest ih =>
    rcases h : splitNl rest with _ | ⟨g, gs⟩
    · exact absurd h (splitNl_ne_nil rest)
    rw [h] at ih
    rw [splitNl, h]
    by_cases hc : c = '\n'
    · subst hc
      rw [if_pos rfl, joinNl_cons₂]
      simp [ih]
    · rw [if_neg hc]
      show joinNl ((c :: g) :: gs) = c :: rest
      rw [joinNl_cons_head, ih]

theorem joinNl_append (xs ys : List Str) (hx : xs ≠ []) (hy : ys ≠ []) :
    joinNl (xs ++ ys) = joinNl xs ++ '\n' :: joinNl ys := by
  induction xs with
  | nil => exact absurd rfl hx
  | cons x xs ih =>
    match xs with
    | [] =>
      match ys with
      | [] => exact absurd rfl hy
      | y :: t => simp [joinNl]
    | x2 :: xt =>
      have h2 : (x2 :: xt) ++ ys ≠ [] := by simp
      calc joinNl ((x :: x2 :: xt) ++ ys)
          = x ++ '\n' :: joinNl ((x2 :: xt) ++ ys) := by
            simp only [List.cons_append, joinNl_cons₂]
        _ = x ++ '\n' :: (joinNl (x2 :: xt) ++ '\n' :: joinNl ys) := by
            rw [ih (by simp)]
        _ = (x ++ '\n' :: joinNl (x2 :: xt)) ++ '\n' :: joinNl ys := by
            simp
        _ = joinNl (x :: x2 :: xt) ++ '\n' :: joinNl ys := by rw [joinNl_cons₂]

theorem goSlides_ne_nil (ls : List Str) (current : List Str) (h : current ≠ []) :
    goSlides current ls ≠ [] := by
  induction ls generalizing current with
  | nil => simp [goSlides, h]
  | cons l t ih =>
    rw [goSlides]
    split
    · have : goSlides [l] t ≠ [] := ih [l] (by simp)
      intro hcontra
      exact this (List.append_eq_nil.mp hcontra).2
    · exact ih (current ++ [l]) (by simp)

theorem joinNl_goSlides (ls : List Str) (current : List Str) (h : current ≠ []) :
    joinNl (goSlides current ls) = joinNl (current ++ ls) := by
  induction ls generalizing current with
  | nil => simp [goSlides, h, joinNl]
  | cons l t ih =>
    rw [goSlides]
    split
    · rw [joinNl_append [joinNl current] (goSlides [l] t) (by simp)
        (goSlides_ne_nil t [l] (by simp))]
      rw [ih [l] (by simp)]
      rw [joinNl_append current (l :: t) h (by simp)]
      simp [joinNl]
    · rw [ih (current ++ [l]) (by simp)]
      simp


theorem goSlides_nil_ne_nil (ls : List Str) (h : ls ≠ []) :
    goSlides [] ls ≠ [] := by
  match ls with
  | [] => exact absurd rfl h
  | l :: t =>
    rw [goSlides]
    split
    · simpa using goSlides_ne_nil t [l] (by simp)
    · exact goSlides_ne_nil t ([] ++ [l]) (by simp)

theorem joinNl_goSlides_nil (ls : List Str) (h : ls ≠ []) :
    joinNl (goSlides [] ls) = joinNl ls := by
  match ls with
  | [] => exact absurd rfl h
  | l :: t =>
    rw [goSlides]
    split
    · rw [if_pos rfl, List.nil_append]
      exact joinNl_goSlides t [l] (by simp)
    · rw [List.nil_append]
      exact joinNl_goSlides t [l] (by simp)

theorem isBoundary_iff (l : Str) : isBoundary l = true ↔
    ((∃ r, l = '#' :: ' ' :: r) ∨ (∃ r, l = '#' :: '#' :: ' ' :: r)) := by
  rcases l with _ | ⟨c1, l⟩
  · simp [isBoundary]
  rcases l with _ | ⟨c2, rest⟩
  · simp [isBoundary]
  rcases rest with _ | ⟨c3, t⟩
  · simp only [isBoundary]
    constructor
    · intro hb
      split_ifs at hb with h1 h2 h3
      exact Or.inl ⟨[], by rw [h1, h2]⟩
    · rintro (⟨r, hr⟩ | ⟨r, hr⟩)
      · injection hr with h1 hr'
        injection hr' with h2 hr''
        rw [h1, h2]
        simp
      · injection hr with h1 hr'
        injection hr' with h2 hr''
        simp at hr''
  · simp only [isBoundary]
    constructor
    · intro hb
      split_ifs at hb with h1 h2 h3
      · exact Or.inl ⟨c3 :: t, by rw [h1, h2]⟩
      · simp only [decide_eq_true_eq] at hb
        exact Or.inr ⟨t, by rw [h1, h3, hb]⟩
    · rintro (⟨r, hr⟩ | ⟨r, hr⟩)
      · injection hr with h1 hr'
        injection hr' with h2 hr''
        rw [h1, h2]
        simp
      · injection hr with h1 hr'
        injection hr' with h2 hr''
        injection hr'' with h3 hr'''
        rw [h1, h2, h3]
        simp

theorem mem_joinNl {c : Char} {x : Str} {xs : List Str}
    (hx : x ∈ xs) (hc : c ∈ x) : c ∈ joinNl xs := by
  induction xs with
  | nil => cases hx
  | cons y ys ih =>
    rcases List.mem_cons.mp hx with h | h
    · subst h
      match ys with
      | [] => simpa [joinNl] using hc
      | z :: t =>
        rw [joinNl_cons₂]
        exact List.mem_append.mpr (Or.inl hc)
    · match ys with
      | [] => cases h
      | z :: t =>
        rw [joinNl_cons₂]
        exact List.mem_append.mpr (Or.inr (List.mem_cons.mpr (Or.inr (ih h))))

theorem goSlides_no_boundary_acc (pre : List Str)
    (hnb : ∀ p ∈ pre, isBoundary p = false) (current : List Str) (ls : List Str) :
    goSlides current (pre ++ ls) = goSlides (current ++ pre) ls := by
  induction pre generalizing current with
  | nil => simp
  | cons p pt ih =>
    have hp : isBoundary p = false := hnb p (List.mem_cons_self p pt)
    rw [List.cons_append, goSlides, if_neg (by simp [hp])]
    rw [ih (fun q hq => hnb q (List.mem_cons.mpr (Or.inr hq))) (current ++ [p])]
    simp

theorem parseSlidesSP_ne_nil (text : Str) : parseSlidesSP text ≠ [] := by
  unfold parseSlidesSP
  split
  · simp
  · show (if goSlides [] (splitNl text) = [] then [placeholderSP]
      else goSlides [] (splitNl text)) ≠ []
    split
    · simp
    · assumption

theorem parseSlidesSP_of_trim_ne (text : Str) (ht : jsTrim text ≠ []) :
    parseSlidesSP text = goSlides [] (splitNl text) := by
  unfold parseSlidesSP
  rw [if_neg ht]
  have hne := goSlides_nil_ne_nil (splitNl text) (splitNl_ne_nil text)
  show (if goSlides [] (splitNl text) = [] then [placeholderSP]
    else goSlides [] (splitNl text)) = goSlides [] (splitNl text)
  rw [if_neg hne]

theorem jsTrim_eq_nil_iff (s : Str) : jsTrim s = [] ↔ ∀ c ∈ s, isWsChar c := by
  unfold jsTrim
  rw [List.reverse_eq_nil_iff, List.dropWhile_eq_nil_iff]
  constructor
  · intro h c hc
    have hsplit := List.takeWhile_append_dropWhile (p := isWsChar) (l := s)
    rw [← hsplit] at hc
    rcases List.mem_append.mp hc with h1 | h2
    · exact List.mem_takeWhile_imp h1
    · exact h c (List.mem_reverse.mpr h2)
  · intro h c hc
    have hmem : c ∈ s.dropWhile isWsChar := List.mem_reverse.mp hc
    exact h c ((List.dropWhile_sublist isWsChar).mem hmem)

theorem parseSlidesSP_join (text : Str) (ht : jsTrim text ≠ []) :
    joinNl (parseSlidesSP text) = text := by
  rw [parseSlidesSP_of_trim_ne text ht]
  rw [joinNl_goSlides_nil (splitNl text) (splitNl_ne_nil text), joinNl_splitNl]

/-! ## Claim theorems: slide segmenter -/

/-- C1 (amended): for every input text, `parseSlides` returns a
non-empty sequence of slides, and whenever the input's trim is
non-empty (so the placeholder branch is not taken), joining the slides
back together with a newline between slides reproduces the input
exactly.  (The original claim, quantified over all inputs, fails on
empty and whitespace-only inputs, where the fixed placeholder slide is
returned instead — see the counterexample.) -/
theorem claim_C1_segment_preserves_content (text : Str) :
    parseSlidesSP text ≠ [] ∧
    (jsTrim text ≠ [] → joinNl (parseSlidesSP text) = text) :=
  ⟨parseSlidesSP_ne_nil text, fun ht => parseSlidesSP_join text ht⟩

/-- C1 witness: the theorem instantiated at the input `"# A\nbody"`. -/
theorem claim_C1_witness :
    parseSlidesSP ("# A\nbody".toList) ≠ [] ∧
    joinNl (parseSlidesSP ("# A\nbody".toList)) = "# A\nbody".toList :=
  ⟨(claim_C1_segment_preserves_content ("# A\nbody".toList)).1,
   (claim_C1_segment_preserves_content ("# A\nbody".toList)).2 (by decide)⟩

/-- C1 counterexample: on the empty input, `parseSlides` returns the
placeholder slide, so joining the slides does not reproduce the input. -/
theorem claim_C1_counterexample :
    parseSlidesSP ("".toList) = [placeholderSP] ∧
    joinNl (parseSlidesSP ("".toList)) ≠ ("".toList) := by decide

/-- C3: a line is a slide boundary iff it begins with one or two `#`
characters followed by a space; in particular `"### C"` is not a
boundary, and `parseSlides "# A\nbody\n## B\nmore"` is exactly the two
slides `"# A\nbody"` and `"## B\nmore"`. -/
theorem claim_C3_boundary_rule :
    (∀ l : Str, isBoundary l = true ↔
      ((∃ r, l = '#' :: ' ' :: r) ∨ (∃ r, l = '#' :: '#' :: ' ' :: r))) ∧
    isBoundary ("### C".toList) = false ∧
    parseSlidesSP ("# A\nbody\n## B\nmore".toList)
      = ["# A\nbody".toList, "## B\nmore".toList] :=
  ⟨isBoundary_iff, by decide, by decide⟩

/-- C3 witness: the concrete conjuncts of the boundary-rule theorem. -/
theorem claim_C3_witness :
    isBoundary ("### C".toList) = false ∧
    parseSlidesSP ("# A\nbody\n## B\nmore".toList)
      = ["# A\nbody".toList, "## B\nmore".toList] :=
  ⟨claim_C3_boundary_rule.2.1, claim_C3_boundary_rule.2.2⟩

/-- C4 (amended): lines before the first boundary are emitted as a
single separate slide that precedes the slide starting at the first
boundary; they are not dropped, and not prepended to the boundary
slide.  (The original claim said they are prepended to the first
boundary's slide — see the counterexample.) -/
theorem claim_C4_leading_lines (text : Str) (pre : List Str) (l : Str)
    (rest : List Str) (hsplit : splitNl text = pre ++ l :: rest)
    (hpre : pre ≠ []) (hnb : ∀ p ∈ pre, isBoundary p = false)
    (hb : isBoundary l = true) :
    parseSlidesSP text = joinNl pre :: goSlides [l] rest := by
  have hhash : '#' ∈ text := by
    have hl : l ∈ splitNl text := by
      rw [hsplit]
      exact List.mem_append.mpr (Or.inr (List.mem_cons_self l rest))
    have hcl : '#' ∈ l := by
      rcases (isBoundary_iff l).mp hb with ⟨r, hr⟩ | ⟨r, hr⟩ <;>
        rw [hr] <;> exact List.mem_cons_self _ _
    have := mem_joinNl hl hcl
    rwa [joinNl_splitNl] at this
  have ht : jsTrim text ≠ [] := by
    intro hcontra
    have := (jsTrim_eq_nil_iff text).mp hcontra '#' hhash
    simp [isWsChar] at this
  rw [parseSlidesSP_of_trim_ne text ht, hsplit,
    goSlides_no_boundary_acc pre hnb [] (l :: rest), List.nil_append,
    goSlides, if_pos hb, if_neg hpre, List.singleton_append]

/-- C4 witness: the theorem instantiated at `"intro\n# A\nbody"`. -/
theorem claim_C4_witness :
    parseSlidesSP ("intro\n# A\nbody".toList)
      = joinNl ["intro".toList] :: goSlides ["# A".toList] ["body".toList] :=
  claim_C4_leading_lines ("intro\n# A\nbody".toList) ["intro".toList]
    ("# A".toList) ["body".toList] (by decide) (by decide) (by decide) (by decide)

/-- C4 counterexample: the leading line `"intro"` becomes its own
slide; it is not prepended to the slide that starts at `"# A"`. -/
theorem claim_C4_counterexample :
    parseSlidesSP ("intro\n# A\nbody".toList)
      = ["intro".toList, "# A\nbody".toList] ∧
    parseSlidesSP ("intro\n# A\nbody".toList)
      ≠ ["intro\n# A\nbody".toList] := by decide

/-- C5: `parseSlides` (SlidePreview) is total — it always returns at
least one slide — and on every input whose characters are all
whitespace (including the empty input) it returns exactly the one
fixed placeholder slide. -/
theorem claim_C5_total_placeholder (text : Str) :
    parseSlidesSP text ≠ [] ∧
    ((∀ c ∈ text, isWsChar c) → parseSlidesSP text = [placeholderSP]) := by
  refine ⟨parseSlidesSP_ne_nil text, fun h => ?_⟩
  unfold parseSlidesSP
  rw [if_pos ((jsTrim_eq_nil_iff text).mpr h)]

/-- C5 witness: the theorem instantiated at the whitespace-only input
`"   "`. -/
theorem claim_C5_witness :
    parseSlidesSP ("   ".toList) ≠ [] ∧
    parseSlidesSP ("   ".toList) = [placeholderSP] :=
  ⟨(claim_C5_total_placeholder ("   ".toList)).1,
   (claim_C5_total_placeholder ("   ".toList)).2 (by decide)⟩

/-- C10 (amended): the two `parseSlides` implementations agree on
every input whose trim is non-empty.  (They disagree on empty and
whitespace-only inputs — see the counterexample.) -/
theorem claim_C10_impls_agree (text : Str) (h : jsTrim text ≠ []) :
    parseSlidesSP text = parseSlidesLP text := by
  rw [parseSlidesSP_of_trim_ne text h]
  unfold parseSlidesLP
  have hne := goSlides_nil_ne_nil (splitNl text) (splitNl_ne_nil text)
  show goSlides [] (splitNl text) =
    (if goSlides [] (splitNl text) = [] then [placeholderLP]
      else goSlides [] (splitNl text))
  rw [if_neg hne]

/-- C10 witness: the theorem instantiated at `"# A"`. -/
theorem claim_C10_witness :
    parseSlidesSP ("# A".toList) = parseSlidesLP ("# A".toList) :=
  claim_C10_impls_agree ("# A".toList) (by decide)

/-- C10 counterexample: on the empty input the SlidePreview
implementation returns the placeholder slide while the LandingPage
implementation returns one empty slide. -/
theorem claim_C10_counterexample :
    parseSlidesSP ("".toList) = [placeholderSP] ∧
    parseSlidesLP ("".toList) = [[]] ∧
    parseSlidesSP ("".toList) ≠ parseSlidesLP ("".toList) := by decide

/-! ## Claim theorems: gist gateway -/

/-- C2 (amended): when the save request carries an existing gist ID,
the remote update fails, and the fallback create succeeds, the handler
surfaces no failure: it returns a success payload with `updated` false
and the newly created ID, and the new ID is added to the ownership
store.  (The original claim, which promised success whenever the
update fails, is false when the fallback create also fails — see the
counterexample.) -/
theorem claim_C2_save_fallback (token gid : String) (r c : GistResponse)
    (owned : List String) (htok : token ≠ "") (hr : r.ok = false)
    (hc : c.ok = true) :
    saveGist token (some gid) (.reply r) (.reply c) owned
      = .success c.id c.html_url false (setCookieHeader (addOwned owned c.id)) ∧
    c.id ∈ addOwned owned c.id := by
  constructor
  · unfold saveGist saveAttempt
    rw [if_neg htok]
    simp [hr, hc]
  · unfold addOwned
    split
    · assumption
    · exact List.mem_append.mpr (Or.inr (List.mem_cons_self _ _))

/-- C2 witness: the theorem instantiated at a stale ID whose update
returns 404 and whose fallback create succeeds with ID `"new1"`. -/
theorem claim_C2_witness :
    saveGist ("tok") (some ("stale")) (.reply ⟨false, 404, "", ""⟩)
      (.reply ⟨true, 201, "new1", "https://gist.github.com/new1"⟩) []
      = .success ("new1") ("https://gist.github.com/new1") false
        (setCookieHeader (addOwned [] ("new1"))) ∧
    ("new1" : String) ∈ addOwned [] ("new1") :=
  claim_C2_save_fallback ("tok") ("stale") ⟨false, 404, "", ""⟩
    ⟨true, 201, "new1", "https://gist.github.com/new1"⟩ [] (by decide) rfl rfl

/-- C2 counterexample: when the update fails with 404 and the fallback
create also fails (status 401), the handler returns an error response,
so the failure is surfaced to the caller after all. -/
theorem claim_C2_counterexample :
    saveGist ("tok") (some ("stale")) (.reply ⟨false, 404, "", ""⟩)
      (.reply ⟨false, 401, "", ""⟩) []
      = .errorResp 401 "Failed to save gist" := by decide

/-- C6: with a configured token, a remote delete reporting success or
not-found yields a success response whose cookie holds the owned list
with the ID removed (so a second delete, now seeing 404, succeeds
again); a non-success status other than 404 yields an error and no
removal, as does a network error. -/
theorem claim_C6_delete_idempotent (token gid : String) (r : GistResponse)
    (owned : List String) (htok : token ≠ "") :
    ((r.ok = true ∨ r.status = 404) →
      deleteGist token gid (.reply r) owned
        = .success (setCookieHeader (owned.filter (fun i => i ≠ gid))) ∧
      gid ∉ owned.filter (fun i => i ≠ gid)) ∧
    (r.ok = false → r.status ≠ 404 →
      deleteGist token gid (.reply r) owned
        = .errorResp (r.status) "Failed to delete gist") ∧
    deleteGist token gid .netError owned
      = .errorResp 500 "Failed to delete gist" := by
  refine ⟨fun h => ⟨?_, ?_⟩, fun h1 h2 => ?_, ?_⟩
  · have hcond : (!r.ok && r.status != 404) = false := by
      rcases h with h | h <;> simp [h]
    simp [deleteGist, htok, hcond]
  · simp [List.mem_filter]
  · simp [deleteGist, htok, h1, h2]
  · simp [deleteGist, htok]

/-- C6 witness: the theorem instantiated at a remote 404 (already
gone): the delete succeeds and the ID leaves the owned list. -/
theorem claim_C6_witness :
    deleteGist ("t") ("g") (.reply ⟨false, 404, "", ""⟩) ["g", "h"]
      = .success (setCookieHeader (["g", "h"].filter (fun i => i ≠ "g"))) ∧
    ("g" : String) ∉ ["g", "h"].filter (fun i => i ≠ "g") :=
  (claim_C6_delete_idempotent ("t") ("g") ⟨false, 404, "", ""⟩ ["g", "h"]
    (by decide)).1 (Or.inr rfl)

/-- C7: with no token the list handler returns the empty list, and
with a token an entry is in the returned list exactly when it comes
from an owned ID whose fetch resolved — IDs whose fetch fails are
silently dropped without failing the whole list. -/
theorem claim_C7_list_drops_failures (token : String) (owned : List String)
    (fetch : String → Option Gist) :
    (token = "" → listGists token owned fetch = []) ∧
    (token ≠ "" → ∀ e : ListEntry, e ∈ listGists token owned fetch ↔
      ∃ gid ∈ owned, ∃ g : Gist, fetch gid = some g ∧ e = entryOf g) := by
  constructor
  · intro h
    simp [listGists, h]
  · intro h e
    by_cases ho : owned = []
    · subst ho
      simp [listGists, h]
    · simp [listGists, h, ho, List.mem_filterMap, Option.map_eq_some', eq_comm]

/-- C7 witness: the theorem instantiated with no token (empty list)
and with a token and two owned IDs of which only `"a1"` resolves. -/
theorem claim_C7_witness :
    listGists ("") ["a1"] fetchW = [] ∧
    entryOf gistA ∈ listGists ("t") ["bad", "a1"] fetchW :=
  ⟨(claim_C7_list_drops_failures ("") ["a1"] fetchW).1 rfl,
   ((claim_C7_list_drops_failures ("t") ["bad", "a1"] fetchW).2 (by decide)
     (entryOf gistA)).mpr ⟨"a1", by decide, gistA, by decide, rfl⟩⟩

/-- C8: the load handler maps a missing token to a 500
not-configured error, a network error to a 500 error, a remote non-ok
status `s` (in particular 404, the remote's "does not exist") to an
error with that status and message `"Gist not found"`, and a fetched
gist whose metadata file is absent or unparsable to a success carrying
the fixed default placeholder title. -/
theorem claim_C8_load_errors (token : String) (fetched : LoadFetch) :
    (token = "" →
      loadGist token fetched = .errorResp 500 "GitHub token not configured") ∧
    (token ≠ "" → fetched = .netError →
      loadGist token fetched = .errorResp 500 "Failed to load from gist") ∧
    (token ≠ "" → ∀ s : Nat, fetched = .httpError s →
      loadGist token fetched = .errorResp (s) "Gist not found") ∧
    (token ≠ "" → ∀ g : Gist, fetched = .okay g →
      (g.metadata = none ∨ g.metadata = some .malformed) →
      loadGist token fetched = .ok (g.presentation.getD "") defaultTitle) := by
  refine ⟨fun h => ?_, fun h hf => ?_, fun h s hf => ?_, fun h g hf hm => ?_⟩
  · simp [loadGist, h]
  · subst hf
    simp [loadGist, h]
  · subst hf
    simp [loadGist, h]
  · subst hf
    rcases hm with hm | hm <;> simp [loadGist, h, titleOf, hm]

/-- C8 witness: the theorem instantiated at a 404 response, at a gist
with no metadata file, and at a missing token. -/
theorem claim_C8_witness :
    loadGist ("t") (.httpError 404) = .errorResp 404 "Gist not found" ∧
    loadGist ("t") (.okay gistNoMeta) = .ok ("# B") defaultTitle ∧
    loadGist ("") .netError = .errorResp 500 "GitHub token not configured" := by
  refine ⟨(claim_C8_load_errors ("t") (.httpError 404)).2.2.1 (by decide) 404 rfl,
    ?_, (claim_C8_load_errors ("") .netError).1 rfl⟩
  have h := (claim_C8_load_errors ("t") (.okay gistNoMeta)).2.2.2 (by decide)
    gistNoMeta rfl (Or.inl rfl)
  simpa [gistNoMeta] using h

/-- C9 (amended): every `Set-Cookie` header emitted for the ownership
store names the cookie `md2slides_owned` (not `owned_docs` as the
specification says), with the value the URL-encoded JSON array of
owned document IDs, `Path=/`, `Max-Age=31536000`, and `SameSite=Lax`:
the header has exactly the `setCookieHeader` shape, and any success
result of the save or delete handler carries exactly such a header. -/
theorem claim_C9_cookie_format (ids : List String) :
    cookieNameOf (setCookieHeader ids) = ownedCookieName ∧
    setCookieHeader ids = ownedCookieName ++ "=" ++
      encodeURIComponent (jsonStringify ids) ++
      "; Path=/; Max-Age=31536000; SameSite=Lax" ∧
    (∀ (token : String) (gid : Option String) (upd cr : FetchResult)
      (owned : List String) (i u : String) (b : Bool) (ck : String),
      saveGist token gid upd cr owned = .success i u b ck →
      ck = setCookieHeader (addOwned owned i)) ∧
    (∀ (token gid : String) (remote : FetchResult) (owned : List String)
      (ck : String),
      deleteGist token gid remote owned = .success ck →
      ck = setCookieHeader (owned.filter (fun x => x ≠ gid))) := by
  have key : ∀ l2 : List Char,
      List.takeWhile (fun c => c ≠ '=') ("md2slides_owned=".toList ++ l2)
        = "md2slides_owned".toList := fun _ => rfl
  refine ⟨?_, rfl, ?_, ?_⟩
  · have h1 : (setCookieHeader ids).toList
        = "md2slides_owned=".toList ++
          (encodeURIComponent (jsonStringify ids) ++
            "; Path=/; Max-Age=31536000; SameSite=Lax").toList := by
      show (ownedCookieName ++ "=" ++ encodeURIComponent (jsonStringify ids) ++
        "; Path=/; Max-Age=31536000; SameSite=Lax").toList = _
      simp only [String.toList, String.data_append, List.append_assoc]
      rfl
    rw [cookieNameOf, h1, key]
    rfl
  · intro token gid upd cr owned i u b ck hsave
    by_cases htok : token = ""
    · simp [saveGist, htok] at hsave
    · rcases hatt : saveAttempt gid upd cr with _ | ⟨resp, fid⟩
      · simp [saveGist, htok, hatt] at hsave
      · by_cases hok : resp.ok = false
        · simp [saveGist, htok, hatt, hok] at hsave
        · simp only [saveGist, if_neg htok, hatt, if_neg hok,
            SaveResult.success.injEq] at hsave
          obtain ⟨hi, hu, hb2, hck⟩ := hsave
          subst hi
          exact hck.symm
  · intro token gid remote owned ck hdel
    by_cases htok : token = ""
    · simp [deleteGist, htok] at hdel
    · cases remote with
      | netError => simp [deleteGist, htok] at hdel
      | reply r =>
        by_cases hcond : (!r.ok && r.status != 404) = true
        · simp [deleteGist, htok, hcond] at hdel
        · simp only [deleteGist, if_neg htok, Bool.not_eq_true] at hdel
          rw [if_neg hcond] at hdel
          simp only [DeleteResult.success.injEq] at hdel
          exact hdel.symm

/-- C9 witness: the cookie name at the concrete owned list `["x"]`,
and the save-handler conjunct applied to a concrete successful create,
identifying the concrete emitted header string. -/
theorem claim_C9_witness :
    cookieNameOf (setCookieHeader ["x"]) = ownedCookieName ∧
    ("md2slides_owned=%5B%22n1%22%5D; Path=/; Max-Age=31536000; SameSite=Lax"
        : String)
      = setCookieHeader (addOwned [] ("n1")) :=
  ⟨(claim_C9_cookie_format ["x"]).1,
   (claim_C9_cookie_format ["x"]).2.2.1 ("t") none .netError
     (.reply ⟨true, 201, "n1", "u"⟩) [] ("n1") ("u") false
     ("md2slides_owned=%5B%22n1%22%5D; Path=/; Max-Age=31536000; SameSite=Lax")
     (by decide)⟩

/-- C9 counterexample: a header actually emitted by the save handler
is named `md2slides_owned`, not `owned_docs`. -/
theorem claim_C9_counterexample :
    saveGist ("t") none .netError (.reply ⟨true, 201, "abc", "u"⟩) []
      = .success ("abc") ("u") false (setCookieHeader ["abc"]) ∧
    cookieNameOf (setCookieHeader ["abc"]) = "md2slides_owned" ∧
    cookieNameOf (setCookieHeader ["abc"]) ≠ "owned_docs" := by decide

end MdToSlides
